import Mathlib

/-!
Verification of the balance-ledger and order-lifecycle subsystem of the
sociallabs VPS backend (Express + Prisma).

The persistent store is shallowly embedded as `DB`: each Prisma model is an
association list keyed by its id (ids are cuid strings for User / Order /
DepositRequest, autoincrement numbers for Service).  Only fields read or
written by the modeled operations are carried; referential integrity (every
`userId` foreign key of a DepositRequest / Order names an existing User row)
is the database's invariant and the pathological missing-row case is never
exercised by any theorem below.

Each route handler / service function that touches the ledger is translated
to a pure function on `DB`.  A Prisma `$transaction([...])` (all-or-nothing
batch) becomes a single record update; separately awaited Prisma calls become
separate commit points (made explicit for the reconciliation job as a list of
committed states, `syncOneOrderCommits`).
-/

deriving instance DecidableEq for Except

namespace SocialLabs

/-- Lookup in an association list (first entry with the key, like a
row fetch by primary key). -/
def alookup {K V : Type} [DecidableEq K] : List (K × V) → K → Option V
  | [], _ => none
  | (k, v) :: rest, key => if k = key then some v else alookup rest key

/-- Update every row with the given key by `f` (Prisma `update where {id}`;
ids are unique in the real store, so this is the single-row update). -/
def amodify {K V : Type} [DecidableEq K] (key : K) (f : V → V) (l : List (K × V)) :
    List (K × V) :=
  l.map (fun q => if q.1 = key then (q.1, f q.2) else q)

theorem alookup_amodify_self {K V : Type} [DecidableEq K] (key : K) (f : V → V)
    (l : List (K × V)) : alookup (amodify key f l) key = (alookup l key).map f := by
  induction l with
  | nil => rfl
  | cons q rest ih =>
    rcases q with ⟨qk, qv⟩
    show alookup ((if qk = key then (qk, f qv) else (qk, qv)) :: amodify key f rest) key
        = (alookup ((qk, qv) :: rest) key).map f
    by_cases h : qk = key
    · rw [if_pos h]
      show (if qk = key then some (f qv) else alookup (amodify key f rest) key)
          = (if qk = key then some qv else alookup rest key).map f
      rw [if_pos h, if_pos h]
      rfl
    · rw [if_neg h]
      show (if qk = key then some qv else alookup (amodify key f rest) key)
          = (if qk = key then some qv else alookup rest key).map f
      rw [if_neg h, if_neg h]
      exact ih

theorem alookup_amodify_ne {K V : Type} [DecidableEq K] (key k : K) (f : V → V)
    (l : List (K × V)) (h : k ≠ key) :
    alookup (amodify key f l) k = alookup l k := by
  induction l with
  | nil => rfl
  | cons q rest ih =>
    rcases q with ⟨qk, qv⟩
    show alookup ((if qk = key then (qk, f qv) else (qk, qv)) :: amodify key f rest) k
        = alookup ((qk, qv) :: rest) k
    by_cases hq : qk = key
    · rw [if_pos hq]
      show (if qk = k then some (f qv) else alookup (amodify key f rest) k)
          = (if qk = k then some qv else alookup rest k)
      have hqk : qk ≠ k := by rw [hq]; exact fun hc => h hc.symm
      rw [if_neg hqk, if_neg hqk]
      exact ih
    · rw [if_neg hq]
      show (if qk = k then some qv else alookup (amodify key f rest) k)
          = (if qk = k then some qv else alookup rest k)
      by_cases hk : qk = k
      · rw [if_pos hk, if_pos hk]
      · rw [if_neg hk, if_neg hk]
        exact ih

theorem alookup_amodify {K V : Type} [DecidableEq K] (key k : K) (f : V → V)
    (l : List (K × V)) :
    alookup (amodify key f l) k =
      if k = key then (alookup l k).map f else alookup l k := by
  by_cases h : k = key
  · subst h; simp [alookup_amodify_self]
  · simp [h, alookup_amodify_ne key k f l h]

/-- `status` enum of the Order model. -/
inductive OrderStatus
  | PENDING
  | PROCESSING
  | PARTIAL
  | COMPLETED
  | CANCELED
  | FAILED
deriving DecidableEq

/-- `newStatus.toLowerCase()` as used in the reconciliation refund description. -/
def OrderStatus.lower : OrderStatus → String
  | .PENDING => "pending"
  | .PROCESSING => "processing"
  | .PARTIAL => "partial"
  | .COMPLETED => "completed"
  | .CANCELED => "canceled"
  | .FAILED => "failed"

/-- `status` enum of the DepositRequest model. -/
inductive DepositStatus
  | PENDING
  | APPROVED
  | REJECTED
deriving DecidableEq

/-- `type` enum of the Transaction model. -/
inductive TxType
  | ORDER
  | REFUND
  | DEPOSIT
deriving DecidableEq

/-- One row of the append-only Transaction ledger. -/
structure Transaction where
  userId : String
  type : TxType
  amount : Int
  description : String
deriving DecidableEq

/-- An Order row (fields read/written by the modeled operations). -/
structure Order where
  userId : String
  charge : Int
  status : OrderStatus
  providerOrderId : Option Int
  startCount : Option Int
  remains : Option Int
deriving DecidableEq

/-- A DepositRequest row (`processedAt` timestamps are not modeled). -/
structure DepositRequest where
  userId : String
  amount : Int
  status : DepositStatus
  processedById : Option String
  adminNote : Option String
deriving DecidableEq

/-- A Service catalog row (fields read/written by admin edit and provider sync). -/
structure Service where
  providerKey : String
  providerId : Nat
  name : String
  type : String
  category : String
  rate : Int
  rateUsdPer1000 : ℚ
  price : Int
  min : Int
  max : Int
  isRefill : Bool
  isCancel : Bool
  isActive : Bool
  title : Option String
  description : Option String
deriving DecidableEq

/-- An AdminLog row (audit log; `details` payload reduced to the target id). -/
structure AdminLog where
  adminId : String
  action : String
  targetType : String
  targetId : String
deriving DecidableEq

/-- The persistent store.  `users` maps a user id to its `balance` field
(the only User column any modeled operation reads or writes). -/
structure DB where
  users : List (String × Int)
  transactions : List Transaction
  orders : List (String × Order)
  depositRequests : List (String × DepositRequest)
  services : List (Nat × Service)
  adminLogs : List AdminLog
deriving DecidableEq

/-- `prisma.user.update data balance increment` on the row with the given id. -/
def creditBalance (users : List (String × Int)) (uid : String) (amt : Int) :
    List (String × Int) :=
  amodify uid (fun b => b + amt) users

/-- Sum of the `amount` column over one user's Transaction rows. -/
def txSum (txns : List Transaction) (uid : String) : Int :=
  txns.foldr (fun t acc => (if t.userId = uid then t.amount else 0) + acc) 0

theorem txSum_append (l1 l2 : List Transaction) (uid : String) :
    txSum (l1 ++ l2) uid = txSum l1 uid + txSum l2 uid := by
  induction l1 with
  | nil => simp [txSum]
  | cons t rest ih =>
    simp [txSum] at ih ⊢
    rw [ih]
    ring

theorem txSum_single (t : Transaction) (uid : String) :
    txSum [t] uid = if t.userId = uid then t.amount else 0 := by
  simp [txSum]

theorem creditBalance_lookup_self (users : List (String × Int)) (uid : String)
    (amt : Int) :
    alookup (creditBalance users uid amt) uid = (alookup users uid).map (· + amt) := by
  simp [creditBalance, alookup_amodify_self]

theorem creditBalance_lookup_ne (users : List (String × Int)) (uid u : String)
    (amt : Int) (h : u ≠ uid) :
    alookup (creditBalance users uid amt) u = alookup users u := by
  simp [creditBalance, alookup_amodify_ne _ _ _ _ h]

/-- Spec §8 invariant, per User row: the `balance` column equals the sum of
that user's Transaction amounts. -/
def ledgerInvariant (db : DB) : Prop :=
  ∀ p ∈ db.users, p.2 = txSum db.transactions p.1

instance (db : DB) : Decidable (ledgerInvariant db) := by
  unfold ledgerInvariant
  infer_instance

/-- The balance increment and the Transaction insert of one atomic unit
preserve the ledger invariant (any other columns may change freely). -/
theorem ledgerInvariant_credit (db db' : DB) (uid : String) (amt : Int)
    (ty : TxType) (d : String)
    (hu : db'.users = creditBalance db.users uid amt)
    (ht : db'.transactions = db.transactions ++ [⟨uid, ty, amt, d⟩])
    (h : ledgerInvariant db) : ledgerInvariant db' := by
  intro p hp
  rw [hu] at hp
  rw [ht, txSum_append, txSum_single]
  rcases List.mem_map.1 hp with ⟨q, hq, hpq⟩
  have hb := h q hq
  by_cases hk : q.1 = uid
  · rw [if_pos hk] at hpq
    rw [← hpq]
    show q.2 + amt = txSum db.transactions q.1 + (if uid = q.1 then amt else 0)
    rw [if_pos hk.symm, hb]
  · rw [if_neg hk] at hpq
    rw [← hpq]
    show q.2 = txSum db.transactions q.1 + (if uid = q.1 then amt else 0)
    rw [if_neg (fun hc => hk hc.symm), hb]
    simp

/-- Operations that touch neither `users` nor `transactions` preserve the
ledger invariant. -/
theorem ledgerInvariant_frame (db db' : DB)
    (hu : db'.users = db.users)
    (ht : db'.transactions = db.transactions)
    (h : ledgerInvariant db) : ledgerInvariant db' := by
  intro p hp
  rw [hu] at hp
  rw [ht]
  exact h p hp

/-- Error taxonomy surfaced by the admin routes (`AppError` status + message). -/
inductive ApiError
  | InvalidAction
  | NotFound
  | AlreadyProcessed
deriving DecidableEq

/-- The read + guard phase of `POST /deposit-requests/:id/:action`
(routes/admin.ts): `findUnique` the request, 404 when absent, 400
`Request already processed` when its status is not PENDING.  This runs as a
separate query **before** the `$transaction` that applies the effects. -/
def resolveDepositGuard (db : DB) (id : String) : Except ApiError DepositRequest :=
  match alookup db.depositRequests id with
  | none => .error .NotFound
  | some request =>
    if request.status ≠ DepositStatus.PENDING then .error .AlreadyProcessed
    else .ok request

/-- The `$transaction` phase of `POST /deposit-requests/:id/:action`: on
approve, atomically set the request APPROVED (stamping `processedById` /
`adminNote`), increment the user's balance by the amount read in the guard
phase, and insert the DEPOSIT transaction; on reject, only update the
request.  The `where` clause of each update names only the id — the PENDING
status is not re-checked here. -/
def resolveDepositCommit (db : DB) (id : String) (request : DepositRequest)
    (action : String) (adminId : String) (adminNote : Option String) : DB :=
  if action = "approve" then
    { db with
      depositRequests := amodify id
        (fun r => { r with status := DepositStatus.APPROVED,
                           processedById := some adminId,
                           adminNote := adminNote }) db.depositRequests,
      users := creditBalance db.users request.userId request.amount,
      transactions := db.transactions ++
        [⟨request.userId, TxType.DEPOSIT, request.amount, "Deposit approved"⟩] }
  else
    { db with
      depositRequests := amodify id
        (fun r => { r with status := DepositStatus.REJECTED,
                           processedById := some adminId,
                           adminNote := adminNote }) db.depositRequests }

/-- `POST /deposit-requests/:id/:action` (admin route), sequential semantics:
validate the action string, run the guard query, then commit. -/
def resolveDepositRequestAdmin (db : DB) (id : String) (action : String)
    (adminId : String) (adminNote : Option String) : Except ApiError DB :=
  if action ≠ "approve" ∧ action ≠ "reject" then .error .InvalidAction
  else
    (resolveDepositGuard db id).map
      (fun request => resolveDepositCommit db id request action adminId adminNote)

/-- Outcome of a Telegram callback, as surfaced by `editMessageText`. -/
inductive TgResult
  | ignored
  | notFound
  | alreadyProcessed
  | processed
deriving DecidableEq

/-- `processCallbackQuery` (services/telegram-polling.ts) after the
destructuring `[kind, id, action] = data.split(':')`; a missing id
destructures to the empty string, which is falsy (`!id`).  On APPROVE the
`$transaction` batches the balance increment, the DEPOSIT transaction insert
and the request update (`processedById: null`); on REJECT only the request
update runs.  The PENDING check is a separate query before the
`$transaction`. -/
def processCallbackQuery (db : DB) (kind id action : String) : DB × TgResult :=
  if kind ≠ "deposit" ∨ id = "" ∨ (action ≠ "APPROVE" ∧ action ≠ "REJECT") then
    (db, TgResult.ignored)
  else
    match alookup db.depositRequests id with
    | none => (db, TgResult.notFound)
    | some reqRow =>
      if reqRow.status ≠ DepositStatus.PENDING then (db, TgResult.alreadyProcessed)
      else
        let db1 :=
          if action = "APPROVE" then
            { db with
              users := creditBalance db.users reqRow.userId reqRow.amount,
              transactions := db.transactions ++
                [⟨reqRow.userId, TxType.DEPOSIT, reqRow.amount,
                  "Deposit approved (telegram: " ++ id ++ ")"⟩] }
          else db
        ({ db1 with
           depositRequests := amodify id
             (fun r => { r with
                status := if action = "APPROVE" then DepositStatus.APPROVED
                          else DepositStatus.REJECTED,
                processedById := none,
                adminNote := some "Processed via Telegram (VPS)" })
             db1.depositRequests },
         TgResult.processed)

/-- `POST /orders/:id/refund` (routes/admin.ts): 404 when the order does not
exist; otherwise one `$transaction` sets the order CANCELED, increments the
owner's balance by `charge`, inserts the REFUND transaction and appends the
ORDER_REFUND admin log.  There is no status guard. -/
def refundOrderAdmin (db : DB) (id : String) (adminId : String)
    (reason : Option String) : Except ApiError DB :=
  match alookup db.orders id with
  | none => .error .NotFound
  | some order =>
    .ok { db with
      orders := amodify id (fun o => { o with status := OrderStatus.CANCELED }) db.orders,
      users := creditBalance db.users order.userId order.charge,
      transactions := db.transactions ++
        [⟨order.userId, TxType.REFUND, order.charge,
          "Admin refund: " ++ reason.getD "No reason provided"⟩],
      adminLogs := db.adminLogs ++ [⟨adminId, "ORDER_REFUND", "Order", id⟩] }

/-- What `response.data?.order` of the provider `add` call evaluated to
(or that the HTTP call itself threw). -/
inductive ProviderSubmitReply
  | threw
  | missing
  | nonNumeric (raw : String)
  | num (n : Int)
deriving DecidableEq

/-- The success condition of `submitOrderToProvider`: the reply carried a
truthy numeric order id (`!providerOrderId || typeof providerOrderId !==
'number'` throws, and the number 0 is falsy in JS). -/
def replyOrderId : ProviderSubmitReply → Option Int
  | .num n => if n = 0 then none else some n
  | _ => none

/-- `submitOrderToProvider` (services/smm-api.ts).  On success, update the
order to PROCESSING with the provider order id.  On any failure (HTTP error,
missing or non-numeric order id) the catch block re-reads the order and, if
it exists, runs one `$transaction` setting it FAILED, incrementing the
owner's balance by `charge` and inserting the REFUND transaction. -/
def submitOrderToProvider (db : DB) (orderId : String)
    (reply : ProviderSubmitReply) : DB :=
  match replyOrderId reply with
  | some pid =>
    match alookup db.orders orderId with
    | some _ =>
      { db with
        orders := amodify orderId
          (fun o => { o with status := OrderStatus.PROCESSING,
                             providerOrderId := some pid }) db.orders }
    | none => db
  | none =>
    match alookup db.orders orderId with
    | none => db
    | some order =>
      { db with
        orders := amodify orderId
          (fun o => { o with status := OrderStatus.FAILED }) db.orders,
        users := creditBalance db.users order.userId order.charge,
        transactions := db.transactions ++
          [⟨order.userId, TxType.REFUND, order.charge, "Order failed"⟩] }

/-- The fixed provider-status lookup table of services/background-jobs.ts. -/
def statusMap (s : String) : Option OrderStatus :=
  if s = "Pending" then some OrderStatus.PENDING
  else if s = "In progress" then some OrderStatus.PROCESSING
  else if s = "Processing" then some OrderStatus.PROCESSING
  else if s = "Completed" then some OrderStatus.COMPLETED
  else if s = "Partial" then some OrderStatus.PARTIAL
  else if s = "Canceled" then some OrderStatus.CANCELED
  else if s = "Refunded" then some OrderStatus.CANCELED
  else if s = "Failed" then some OrderStatus.FAILED
  else none

/-- Payload of the provider `status` call for one order. -/
structure ProviderStatusReply where
  status : String
  start_count : Option Int
  remains : Option Int
deriving DecidableEq

/-- `x ? Number(x) : undefined`: a missing or zero (falsy) count becomes
`undefined`, which Prisma treats as "leave the column unchanged". -/
def jsTruthyInt : Option Int → Option Int
  | some n => if n = 0 then none else some n
  | none => none

/-- The `prisma.order.update` data of the reconciliation job: new status,
and `startCount` / `remains` only when the reply carried truthy values. -/
def syncOrderUpdate (o : Order) (newStatus : OrderStatus)
    (r : ProviderStatusReply) : Order :=
  { o with
    status := newStatus,
    startCount := match jsTruthyInt r.start_count with
                  | some n => some n
                  | none => o.startCount,
    remains := match jsTruthyInt r.remains with
               | some n => some n
               | none => o.remains }

/-- The sequence of states committed by one loop iteration of
`syncOrderStatuses` for the order `o` (fetched as `orderId`) given the
provider reply `r`.  The handler awaits `prisma.order.update` first and only
then, when the refund condition holds, a second `$transaction` with the
balance increment and the REFUND transaction — two separate commit points. -/
def syncOneOrderCommits (db : DB) (orderId : String) (o : Order)
    (r : ProviderStatusReply) : List DB :=
  let newStatus := (statusMap r.status).getD o.status
  if newStatus = o.status then []
  else
    let db1 := { db with
      orders := amodify orderId (fun x => syncOrderUpdate x newStatus r) db.orders }
    if (newStatus = OrderStatus.CANCELED ∨ newStatus = OrderStatus.FAILED) ∧
       ¬(o.status = OrderStatus.CANCELED ∨ o.status = OrderStatus.FAILED) then
      [db1,
       { db1 with
         users := creditBalance db1.users o.userId o.charge,
         transactions := db1.transactions ++
           [⟨o.userId, TxType.REFUND, o.charge,
             "Order " ++ newStatus.lower ++ ": " ++ orderId⟩] }]
    else [db1]

/-- Last element of a commit sequence (the state left behind once every
commit of the iteration has been applied), or `d` when nothing committed. -/
def lastState (l : List DB) (d : DB) : DB :=
  match l with
  | [] => d
  | s :: rest => lastState rest s

/-- Final state of one loop iteration of `syncOrderStatuses` for one order. -/
def syncOneOrder (db : DB) (orderId : String) (o : Order)
    (r : ProviderStatusReply) : DB :=
  lastState (syncOneOrderCommits db orderId o r) db

/-- The batch filter of `syncOrderStatuses`: `status in [PENDING, PROCESSING]
and providerOrderId not null`. -/
def orderEligibleForSync (o : Order) : Bool :=
  decide ((o.status = OrderStatus.PENDING ∨ o.status = OrderStatus.PROCESSING) ∧
          o.providerOrderId ≠ none)

/-- One reconciliation touch of one order id at the run level: the order is
processed only when the batch query selected it (it exists and matches the
filter). -/
def syncOrderStep (db : DB) (orderId : String) (r : ProviderStatusReply) : DB :=
  match alookup db.orders orderId with
  | none => db
  | some o => if orderEligibleForSync o then syncOneOrder db orderId o r else db

/-- Body of `PATCH /services/:id` (routes/admin.ts).  An outer `none` models
an absent field.  `price` is guarded by JS truthiness (`price && ...`), so a
zero price is ignored; `title` / `description` are written whenever they are
not `undefined` (inner `none` = explicit null). -/
structure ServicePatch where
  isActive : Option Bool
  price : Option Int
  title : Option (Option String)
  description : Option (Option String)
deriving DecidableEq

/-- `PATCH /services/:id`: a single `prisma.service.update` on the Service
row; no other table is touched. -/
def updateServiceAdmin (db : DB) (sid : Nat) (p : ServicePatch) : DB :=
  { db with
    services := amodify sid
      (fun s => { s with
        isActive := p.isActive.getD s.isActive,
        price := match p.price with
                 | some pr => if pr = 0 then s.price else pr
                 | none => s.price,
        title := p.title.getD s.title,
        description := p.description.getD s.description }) db.services }

/-- One service descriptor of the provider `services` response
(`svc.service`, `svc.rate` etc. in services/smm-api.ts); the JS float
`Number(svc.rate)` is modeled as a rational. -/
structure ProviderServiceDescriptor where
  service : Nat
  name : String
  type : Option String
  category : String
  rate : ℚ
  min : Int
  max : Int
  refill : Bool
  cancel : Bool
deriving DecidableEq

/-- `svc.type || 'Default'` (an absent or empty type string is falsy). -/
def typeOrDefault : Option String → String
  | none => "Default"
  | some t => if t = "" then "Default" else t

/-- Hardcoded `usdToKrwRate = 1400` of `syncServicesFromProvider`. -/
def usdToKrwRate : ℚ := 1400

/-- `rateKrw = Math.ceil(rateUsd * usdToKrwRate)`. -/
def computeRateKrw (rateUsd : ℚ) : Int := ⌈rateUsd * usdToKrwRate⌉

/-- `priceKrw = Math.ceil(rateKrw * 1.3)` (30% markup). -/
def computePriceKrw (rateKrw : Int) : Int := ⌈(rateKrw : ℚ) * (13 / 10 : ℚ)⌉

/-- `prisma.service.findFirst where providerKey, providerId`. -/
def findServiceByProvider (services : List (Nat × Service)) (providerKey : String)
    (providerId : Nat) : Option (Nat × Service) :=
  services.find? (fun q =>
    decide (q.2.providerKey = providerKey ∧ q.2.providerId = providerId))

/-- The Service row inserted by `prisma.service.create` for a descriptor with
no existing (providerKey, providerId) row; new services are inactive by
default. -/
def newServiceRow (providerKey : String) (svc : ProviderServiceDescriptor) : Service :=
  { providerKey := providerKey,
    providerId := svc.service,
    name := svc.name,
    type := typeOrDefault svc.type,
    category := svc.category,
    rate := computeRateKrw svc.rate,
    rateUsdPer1000 := svc.rate,
    price := computePriceKrw (computeRateKrw svc.rate),
    min := svc.min,
    max := svc.max,
    isRefill := svc.refill,
    isCancel := svc.cancel,
    isActive := false,
    title := none,
    description := none }

/-- One iteration of the `syncServicesFromProvider` loop (services/smm-api.ts):
update the existing row's catalog fields (never `price` / `isActive`), or
create a new inactive row (`nextId` models the autoincrement id). -/
def syncOneService (db : DB) (providerKey : String) (nextId : Nat)
    (svc : ProviderServiceDescriptor) : DB :=
  match findServiceByProvider db.services providerKey svc.service with
  | some (sid, _) =>
    { db with
      services := amodify sid
        (fun s => { s with
          name := svc.name,
          type := typeOrDefault svc.type,
          category := svc.category,
          rate := computeRateKrw svc.rate,
          rateUsdPer1000 := svc.rate,
          min := svc.min,
          max := svc.max,
          isRefill := svc.refill,
          isCancel := svc.cancel }) db.services }
  | none =>
    { db with services := db.services ++ [(nextId, newServiceRow providerKey svc)] }

/-- The balance-mutating operations present in the code: deposit approval via
the admin route, deposit approval via the Telegram callback, admin order
refund, provider-submission-failure refund, and the reconciliation refund. -/
inductive LedgerOp
  | adminDeposit (id : String) (action : String) (adminId : String)
      (adminNote : Option String)
  | telegramDeposit (kind id action : String)
  | adminRefund (orderId : String) (adminId : String) (reason : Option String)
  | providerSubmit (orderId : String) (reply : ProviderSubmitReply)
  | reconcile (orderId : String) (r : ProviderStatusReply)

/-- Apply one operation to the store.  A route that threw (`AppError`) before
reaching its write commits nothing, so an error leaves the store unchanged. -/
def applyOp (db : DB) : LedgerOp → DB
  | .adminDeposit id action adminId note =>
    ((resolveDepositRequestAdmin db id action adminId note).toOption).getD db
  | .telegramDeposit kind id action => (processCallbackQuery db kind id action).1
  | .adminRefund orderId adminId reason =>
    ((refundOrderAdmin db orderId adminId reason).toOption).getD db
  | .providerSubmit orderId reply => submitOrderToProvider db orderId reply
  | .reconcile orderId r => syncOrderStep db orderId r

theorem ledgerInvariant_resolveDepositCommit (db : DB) (id : String)
    (request : DepositRequest) (action adminId : String) (note : Option String)
    (h : ledgerInvariant db) :
    ledgerInvariant (resolveDepositCommit db id request action adminId note) := by
  unfold resolveDepositCommit
  by_cases ha : action = "approve"
  · rw [if_pos ha]
    exact ledgerInvariant_credit db _ request.userId request.amount TxType.DEPOSIT _
      rfl rfl h
  · rw [if_neg ha]
    exact ledgerInvariant_frame db _ rfl rfl h

theorem ledgerInvariant_adminDeposit (db : DB) (id action adminId : String)
    (note : Option String) (h : ledgerInvariant db) :
    ledgerInvariant
      (((resolveDepositRequestAdmin db id action adminId note).toOption).getD db) := by
  unfold resolveDepositRequestAdmin resolveDepositGuard
  split
  · exact h
  · split
    · exact h
    · split
      · exact h
      · exact ledgerInvariant_resolveDepositCommit db id _ action adminId note h

theorem ledgerInvariant_telegramDeposit (db : DB) (kind id action : String)
    (h : ledgerInvariant db) :
    ledgerInvariant (processCallbackQuery db kind id action).1 := by
  unfold processCallbackQuery
  split
  · exact h
  · split
    · exact h
    · split
      · exact h
      · by_cases ha : action = "APPROVE"
        · simp only [if_pos ha]
          exact ledgerInvariant_credit db _ _ _ TxType.DEPOSIT _ rfl rfl h
        · simp only [if_neg ha]
          exact ledgerInvariant_frame db _ rfl rfl h

theorem ledgerInvariant_adminRefund (db : DB) (orderId adminId : String)
    (reason : Option String) (h : ledgerInvariant db) :
    ledgerInvariant (((refundOrderAdmin db orderId adminId reason).toOption).getD db) := by
  unfold refundOrderAdmin
  split
  · exact h
  · exact ledgerInvariant_credit db _ _ _ TxType.REFUND _ rfl rfl h

theorem ledgerInvariant_providerSubmit (db : DB) (orderId : String)
    (reply : ProviderSubmitReply) (h : ledgerInvariant db) :
    ledgerInvariant (submitOrderToProvider db orderId reply) := by
  unfold submitOrderToProvider
  split
  · split
    · exact ledgerInvariant_frame db _ rfl rfl h
    · exact h
  · split
    · exact h
    · exact ledgerInvariant_credit db _ _ _ TxType.REFUND _ rfl rfl h

theorem ledgerInvariant_reconcile (db : DB) (orderId : String)
    (r : ProviderStatusReply) (h : ledgerInvariant db) :
    ledgerInvariant (syncOrderStep db orderId r) := by
  unfold syncOrderStep
  split
  · exact h
  · split
    · unfold syncOneOrder syncOneOrderCommits
      dsimp only
      split
      · exact h
      · split
        · exact ledgerInvariant_credit db _ _ _ TxType.REFUND _ rfl rfl h
        · exact ledgerInvariant_frame db _ rfl rfl h
    · exact h

theorem ledgerInvariant_applyOp (db : DB) (op : LedgerOp) (h : ledgerInvariant db) :
    ledgerInvariant (applyOp db op) := by
  cases op with
  | adminDeposit id action adminId note =>
    exact ledgerInvariant_adminDeposit db id action adminId note h
  | telegramDeposit kind id action =>
    exact ledgerInvariant_telegramDeposit db kind id action h
  | adminRefund orderId adminId reason =>
    exact ledgerInvariant_adminRefund db orderId adminId reason h
  | providerSubmit orderId reply =>
    exact ledgerInvariant_providerSubmit db orderId reply h
  | reconcile orderId r =>
    exact ledgerInvariant_reconcile db orderId r h

/-- Claim C1: for every user and every sequence of the balance-mutating
operations present in the code (deposit approval via the admin route, deposit
approval via the Telegram callback, admin order refund,
provider-submission-failure refund, reconciliation refund), the user's
balance field equals the sum of that user's Transaction amounts after every
operation, given it held before: each operation performs its balance
increment and its Transaction insert in the same atomic unit. -/
theorem C1_ledger_invariant_preserved (db : DB) (ops : List LedgerOp)
    (h : ledgerInvariant db) : ledgerInvariant (ops.foldl applyOp db) := by
  induction ops generalizing db with
  | nil => exact h
  | cons op rest ih => exact ih (applyOp db op) (ledgerInvariant_applyOp db op h)

/-- Shared concrete store for the witnesses below. -/
def wdb : DB :=
  { users := [("u1", 1000)],
    transactions := [⟨"u1", TxType.DEPOSIT, 1000, "init"⟩],
    orders := [("o1", ⟨"u1", 500, OrderStatus.PROCESSING, some 77, none, none⟩)],
    depositRequests := [("d1", ⟨"u1", 20000, DepositStatus.PENDING, none, none⟩)],
    services := [(1, { providerKey := "SMMKINGS", providerId := 601,
                       name := "old name", type := "Default", category := "cat",
                       rate := 1400, rateUsdPer1000 := 1, price := 5000,
                       min := 10, max := 10000, isRefill := false,
                       isCancel := false, isActive := true,
                       title := some "custom title", description := none })],
    adminLogs := [] }

/-- Shared concrete sequence of ledger operations for the C1 witness. -/
def wops : List LedgerOp :=
  [LedgerOp.adminDeposit "d1" "approve" "a1" none,
   LedgerOp.telegramDeposit "deposit" "d1" "APPROVE",
   LedgerOp.reconcile "o1" ⟨"Canceled", some 3, some 0⟩,
   LedgerOp.adminRefund "o1" "a1" (some "dispute"),
   LedgerOp.providerSubmit "o1" ProviderSubmitReply.threw]

theorem C1_witness :
    ledgerInvariant wdb ∧ ledgerInvariant (wops.foldl applyOp wdb) :=
  ⟨by decide, C1_ledger_invariant_preserved wdb wops (by decide)⟩

theorem resolveDepositGuard_pending (db : DB) (id : String) (req : DepositRequest)
    (hreq : alookup db.depositRequests id = some req)
    (hpend : req.status = DepositStatus.PENDING) :
    resolveDepositGuard db id = Except.ok req := by
  unfold resolveDepositGuard
  rw [hreq]
  simp [hpend]

theorem resolveDepositGuard_nonpending (db : DB) (id : String) (req : DepositRequest)
    (hreq : alookup db.depositRequests id = some req)
    (hnp : req.status ≠ DepositStatus.PENDING) :
    resolveDepositGuard db id = Except.error ApiError.AlreadyProcessed := by
  unfold resolveDepositGuard
  rw [hreq]
  simp [hnp]

theorem resolveDepositRequestAdmin_pending (db : DB) (id : String)
    (req : DepositRequest) (action adminId : String) (note : Option String)
    (hreq : alookup db.depositRequests id = some req)
    (hpend : req.status = DepositStatus.PENDING)
    (hact : action = "approve" ∨ action = "reject") :
    resolveDepositRequestAdmin db id action adminId note =
      Except.ok (resolveDepositCommit db id req action adminId note) := by
  unfold resolveDepositRequestAdmin
  have hval : ¬(action ≠ "approve" ∧ action ≠ "reject") := by
    rcases hact with h | h <;> simp [h]
  rw [if_neg hval, resolveDepositGuard_pending db id req hreq hpend]
  rfl

theorem resolveDepositRequestAdmin_nonpending (db : DB) (id : String)
    (req : DepositRequest) (action adminId : String) (note : Option String)
    (hreq : alookup db.depositRequests id = some req)
    (hnp : req.status ≠ DepositStatus.PENDING)
    (hact : action = "approve" ∨ action = "reject") :
    resolveDepositRequestAdmin db id action adminId note =
      Except.error ApiError.AlreadyProcessed := by
  unfold resolveDepositRequestAdmin
  have hval : ¬(action ≠ "approve" ∧ action ≠ "reject") := by
    rcases hact with h | h <;> simp [h]
  rw [if_neg hval, resolveDepositGuard_nonpending db id req hreq hnp]
  rfl

theorem processCallbackQuery_nonpending (db : DB) (id action : String)
    (req : DepositRequest)
    (hid : id ≠ "")
    (hreq : alookup db.depositRequests id = some req)
    (hnp : req.status ≠ DepositStatus.PENDING)
    (hact : action = "APPROVE" ∨ action = "REJECT") :
    processCallbackQuery db "deposit" id action = (db, TgResult.alreadyProcessed) := by
  unfold processCallbackQuery
  have hguard : ¬("deposit" ≠ "deposit" ∨ id = "" ∨
      (action ≠ "APPROVE" ∧ action ≠ "REJECT")) := by
    rcases hact with h | h <;> simp [hid, h]
  rw [if_neg hguard, hreq]
  simp [hnp]

/-- Claim C2: for every deposit request, calling the resolve operation twice
in sequence with the same id and the same action credits the user's balance
exactly once and performs exactly one PENDING transition; the second call
returns the AlreadyProcessed error (on either channel) and changes neither
the request, the balance, nor the ledger. -/
theorem C2_deposit_resolve_idempotent (db : DB) (id : String) (req : DepositRequest)
    (action adminId : String) (note : Option String)
    (hid : id ≠ "")
    (hreq : alookup db.depositRequests id = some req)
    (hpend : req.status = DepositStatus.PENDING)
    (hact : action = "approve" ∨ action = "reject") :
    ∃ db1 : DB,
      resolveDepositRequestAdmin db id action adminId note = Except.ok db1 ∧
      db1.transactions = db.transactions ++
        (if action = "approve"
         then [⟨req.userId, TxType.DEPOSIT, req.amount, "Deposit approved"⟩]
         else []) ∧
      db1.users = (if action = "approve"
                   then creditBalance db.users req.userId req.amount
                   else db.users) ∧
      alookup db1.depositRequests id = some { req with
        status := if action = "approve" then DepositStatus.APPROVED
                  else DepositStatus.REJECTED,
        processedById := some adminId,
        adminNote := note } ∧
      resolveDepositRequestAdmin db1 id action adminId note =
        Except.error ApiError.AlreadyProcessed ∧
      processCallbackQuery db1 "deposit" id
          (if action = "approve" then "APPROVE" else "REJECT") =
        (db1, TgResult.alreadyProcessed) := by
  refine ⟨resolveDepositCommit db id req action adminId note,
    resolveDepositRequestAdmin_pending db id req action adminId note hreq hpend hact,
    ?_, ?_, ?_, ?_, ?_⟩
  · rcases hact with h | h <;> subst h <;> simp [resolveDepositCommit]
  · rcases hact with h | h <;> subst h <;> simp [resolveDepositCommit]
  · rcases hact with h | h <;> subst h <;>
      simp [resolveDepositCommit, alookup_amodify_self, hreq]
  · rcases hact with h | h <;> subst h
    · refine resolveDepositRequestAdmin_nonpending _ id
        { req with status := DepositStatus.APPROVED, processedById := some adminId,
                   adminNote := note } _ adminId note ?_ (by simp) (Or.inl rfl)
      simp [resolveDepositCommit, alookup_amodify_self, hreq]
    · refine resolveDepositRequestAdmin_nonpending _ id
        { req with status := DepositStatus.REJECTED, processedById := some adminId,
                   adminNote := note } _ adminId note ?_ (by simp) (Or.inr rfl)
      simp [resolveDepositCommit, alookup_amodify_self, hreq]
  · rcases hact with h | h <;> subst h
    · refine processCallbackQuery_nonpending _ id "APPROVE"
        { req with status := DepositStatus.APPROVED, processedById := some adminId,
                   adminNote := note } hid ?_ (by simp) (Or.inl rfl)
      simp [resolveDepositCommit, alookup_amodify_self, hreq]
    · refine processCallbackQuery_nonpending _ id "REJECT"
        { req with status := DepositStatus.REJECTED, processedById := some adminId,
                   adminNote := note } hid ?_ (by simp) (Or.inr rfl)
      simp [resolveDepositCommit, alookup_amodify_self, hreq]

theorem C2_witness :
    ("d1" : String) ≠ "" ∧
    alookup wdb.depositRequests "d1" =
      some ⟨"u1", 20000, DepositStatus.PENDING, none, none⟩ ∧
    ∃ db1 : DB,
      resolveDepositRequestAdmin wdb "d1" "approve" "a1" none = Except.ok db1 ∧
      resolveDepositRequestAdmin db1 "d1" "approve" "a1" none =
        Except.error ApiError.AlreadyProcessed := by
  refine ⟨by decide, by decide, ?_⟩
  obtain ⟨db1, h1, _, _, _, h5, _⟩ :=
    C2_deposit_resolve_idempotent wdb "d1"
      ⟨"u1", 20000, DepositStatus.PENDING, none, none⟩ "approve" "a1" none
      (by decide) (by decide) rfl (Or.inl rfl)
  exact ⟨db1, h1, h5⟩

theorem orderEligibleForSync_status (o : Order)
    (he : orderEligibleForSync o = true) :
    o.status = OrderStatus.PENDING ∨ o.status = OrderStatus.PROCESSING := by
  simp [orderEligibleForSync] at he
  exact he.1

/-- The two-commit evaluation of one reconciliation iteration whose mapped
status enters {CANCELED, FAILED} from a state not already there. -/
theorem syncOneOrderCommits_refund (db : DB) (oid : String) (o : Order)
    (r : ProviderStatusReply) (t : OrderStatus)
    (hm : statusMap r.status = some t)
    (hne : t ≠ o.status)
    (ht : t = OrderStatus.CANCELED ∨ t = OrderStatus.FAILED)
    (hnt : ¬(o.status = OrderStatus.CANCELED ∨ o.status = OrderStatus.FAILED)) :
    syncOneOrderCommits db oid o r =
      [{ db with orders := amodify oid (fun x => syncOrderUpdate x t r) db.orders },
       { db with
         orders := amodify oid (fun x => syncOrderUpdate x t r) db.orders,
         users := creditBalance db.users o.userId o.charge,
         transactions := db.transactions ++
           [⟨o.userId, TxType.REFUND, o.charge,
             "Order " ++ t.lower ++ ": " ++ oid⟩] }] := by
  unfold syncOneOrderCommits
  rw [hm]
  dsimp only [Option.getD]
  rw [if_neg hne, if_pos ⟨ht, hnt⟩]

/-- Claim C3: one reconciliation cycle whose provider-reported status maps to
CANCELED or FAILED applies exactly one refund (one balance credit and one
REFUND transaction), and a second cycle observing the same terminal provider
status changes nothing. -/
theorem C3_reconcile_refund_once (db : DB) (oid : String) (o : Order)
    (r : ProviderStatusReply) (t : OrderStatus)
    (ho : alookup db.orders oid = some o)
    (he : orderEligibleForSync o = true)
    (hm : statusMap r.status = some t)
    (ht : t = OrderStatus.CANCELED ∨ t = OrderStatus.FAILED) :
    (syncOrderStep db oid r).users = creditBalance db.users o.userId o.charge ∧
    (syncOrderStep db oid r).transactions = db.transactions ++
      [⟨o.userId, TxType.REFUND, o.charge, "Order " ++ t.lower ++ ": " ++ oid⟩] ∧
    syncOrderStep (syncOrderStep db oid r) oid r = syncOrderStep db oid r := by
  have hst := orderEligibleForSync_status o he
  have hnt : ¬(o.status = OrderStatus.CANCELED ∨ o.status = OrderStatus.FAILED) := by
    rcases hst with h | h <;> simp [h]
  have hne : t ≠ o.status := by
    rcases ht with h | h <;> rcases hst with h2 | h2 <;> simp [h, h2]
  have hcommits := syncOneOrderCommits_refund db oid o r t hm hne ht hnt
  have hstep : syncOrderStep db oid r =
      { db with
        orders := amodify oid (fun x => syncOrderUpdate x t r) db.orders,
        users := creditBalance db.users o.userId o.charge,
        transactions := db.transactions ++
          [⟨o.userId, TxType.REFUND, o.charge,
            "Order " ++ t.lower ++ ": " ++ oid⟩] } := by
    unfold syncOrderStep
    rw [ho]
    dsimp only
    rw [if_pos he]
    unfold syncOneOrder
    rw [hcommits]
    rfl
  refine ⟨by rw [hstep], by rw [hstep], ?_⟩
  rw [hstep]
  have hlook2 : alookup
      (amodify oid (fun x => syncOrderUpdate x t r) db.orders) oid =
      some (syncOrderUpdate o t r) := by
    rw [alookup_amodify_self, ho]
    rfl
  have hterm : orderEligibleForSync (syncOrderUpdate o t r) = false := by
    rcases ht with h | h <;> simp [orderEligibleForSync, syncOrderUpdate, h]
  conv =>
    lhs
    unfold syncOrderStep
  rw [show alookup { db with
        orders := amodify oid (fun x => syncOrderUpdate x t r) db.orders,
        users := creditBalance db.users o.userId o.charge,
        transactions := db.transactions ++
          [⟨o.userId, TxType.REFUND, o.charge,
            "Order " ++ t.lower ++ ": " ++ oid⟩] : DB }.orders oid =
      some (syncOrderUpdate o t r) from hlook2]
  dsimp only
  rw [hterm]
  simp

theorem C3_witness :
    alookup wdb.orders "o1" =
      some ⟨"u1", 500, OrderStatus.PROCESSING, some 77, none, none⟩ ∧
    statusMap "Canceled" = some OrderStatus.CANCELED ∧
    (syncOrderStep wdb "o1" ⟨"Canceled", none, none⟩).transactions =
      wdb.transactions ++
        [⟨"u1", TxType.REFUND, 500, "Order canceled: o1"⟩] ∧
    syncOrderStep (syncOrderStep wdb "o1" ⟨"Canceled", none, none⟩) "o1"
        ⟨"Canceled", none, none⟩ =
      syncOrderStep wdb "o1" ⟨"Canceled", none, none⟩ := by
  obtain ⟨_, h2, h3⟩ :=
    C3_reconcile_refund_once wdb "o1"
      ⟨"u1", 500, OrderStatus.PROCESSING, some 77, none, none⟩
      ⟨"Canceled", none, none⟩ OrderStatus.CANCELED
      (by decide) (by decide) (by decide) (Or.inl rfl)
  exact ⟨by decide, by decide, h2, h3⟩

/-- Formalization of claim C4 following the spec's words: the order
status/startCount/remains update and the refund sequence "are applied
atomically: either all of these effects are committed or none is, with no
intermediate state observable" — every state committed while reconciling the
order must already equal the iteration's final state. -/
def reconcileCommitsAtomic (db : DB) (oid : String) (o : Order)
    (r : ProviderStatusReply) : Prop :=
  ∀ s ∈ syncOneOrderCommits db oid o r, s = syncOneOrder db oid o r

instance (db : DB) (oid : String) (o : Order) (r : ProviderStatusReply) :
    Decidable (reconcileCommitsAtomic db oid o r) := by
  unfold reconcileCommitsAtomic
  infer_instance

/-- Order used by the C4 counterexample (a PROCESSING order of charge 500). -/
def c4order : Order := ⟨"u1", 500, OrderStatus.PROCESSING, some 77, none, none⟩

/-- Store used by the C4 counterexample. -/
def c4db : DB :=
  { users := [("u1", 1000)],
    transactions := [],
    orders := [("o1", c4order)],
    depositRequests := [],
    services := [],
    adminLogs := [] }

/-- Provider reply used by the C4 counterexample. -/
def c4reply : ProviderStatusReply := ⟨"Canceled", none, none⟩

/-- Claim C4 is false on the code: the handler awaits `prisma.order.update`
on its own and only afterwards runs the refund `$transaction`, so a committed
intermediate state exists in which the order is already CANCELED while no
refund transaction and no balance credit have been applied. -/
theorem C4_counterexample :
    ¬ reconcileCommitsAtomic c4db "o1" c4order c4reply ∧
    ∃ mid ∈ syncOneOrderCommits c4db "o1" c4order c4reply,
      (alookup mid.orders "o1").map Order.status = some OrderStatus.CANCELED ∧
      mid.transactions = [] ∧
      mid.users = c4db.users ∧
      mid ≠ syncOneOrder c4db "o1" c4order c4reply := by
  decide

/-- Claim C4 (amended): when the mapped provider status differs from the
current one and enters {CANCELED, FAILED} from a non-terminal-refunded state,
the iteration produces exactly two commits: the first writes only the Order
row (status/startCount/remains), the second applies the balance credit and
the REFUND transaction atomically with each other.  The refund pair is
atomic, but the order update is committed separately before it, so a state
with the order terminal and no refund is observable between the two. -/
theorem C4_status_update_separate_refund_atomic (db : DB) (oid : String)
    (o : Order) (r : ProviderStatusReply) (t : OrderStatus)
    (hm : statusMap r.status = some t)
    (hne : t ≠ o.status)
    (ht : t = OrderStatus.CANCELED ∨ t = OrderStatus.FAILED)
    (hnt : ¬(o.status = OrderStatus.CANCELED ∨ o.status = OrderStatus.FAILED)) :
    ∃ mid : DB,
      syncOneOrderCommits db oid o r = [mid, syncOneOrder db oid o r] ∧
      mid.users = db.users ∧
      mid.transactions = db.transactions ∧
      mid.depositRequests = db.depositRequests ∧
      mid.orders = amodify oid (fun x => syncOrderUpdate x t r) db.orders ∧
      (syncOneOrder db oid o r).orders = mid.orders ∧
      (syncOneOrder db oid o r).users = creditBalance mid.users o.userId o.charge ∧
      (syncOneOrder db oid o r).transactions = mid.transactions ++
        [⟨o.userId, TxType.REFUND, o.charge,
          "Order " ++ t.lower ++ ": " ++ oid⟩] := by
  have hcommits := syncOneOrderCommits_refund db oid o r t hm hne ht hnt
  refine ⟨{ db with orders := amodify oid (fun x => syncOrderUpdate x t r) db.orders },
    ?_, rfl, rfl, rfl, rfl, ?_, ?_, ?_⟩
  · rw [hcommits]
    unfold syncOneOrder
    rw [hcommits]
    rfl
  · unfold syncOneOrder
    rw [hcommits]
    rfl
  · unfold syncOneOrder
    rw [hcommits]
    rfl
  · unfold syncOneOrder
    rw [hcommits]
    rfl

theorem C4_witness :
    statusMap "Canceled" = some OrderStatus.CANCELED ∧
    ∃ mid : DB,
      syncOneOrderCommits wdb "o1"
          ⟨"u1", 500, OrderStatus.PROCESSING, some 77, none, none⟩
          ⟨"Canceled", none, none⟩ =
        [mid, syncOneOrder wdb "o1"
          ⟨"u1", 500, OrderStatus.PROCESSING, some 77, none, none⟩
          ⟨"Canceled", none, none⟩] ∧
      mid.transactions = wdb.transactions ∧
      (syncOneOrder wdb "o1"
          ⟨"u1", 500, OrderStatus.PROCESSING, some 77, none, none⟩
          ⟨"Canceled", none, none⟩).transactions =
        mid.transactions ++ [⟨"u1", TxType.REFUND, 500, "Order canceled: o1"⟩] := by
  obtain ⟨mid, h1, _, h3, _, _, _, _, h8⟩ :=
    C4_status_update_separate_refund_atomic wdb "o1"
      ⟨"u1", 500, OrderStatus.PROCESSING, some 77, none, none⟩
      ⟨"Canceled", none, none⟩ OrderStatus.CANCELED
      (by decide) (by decide) (Or.inl rfl) (by decide)
  exact ⟨by decide, mid, h1, h3, h8⟩

/-- Store used by the C5 race evaluation: one user with balance 0 and one
PENDING deposit request of amount 20000. -/
def c5db : DB :=
  { users := [("u1", 0)],
    transactions := [],
    orders := [],
    depositRequests := [("d1", ⟨"u1", 20000, DepositStatus.PENDING, none, none⟩)],
    services := [],
    adminLogs := [] }

/-- Claim C5 evaluated at the failing schedule: the PENDING guard is a
separate read issued before the `$transaction`, and nothing inside the
`$transaction` re-checks it.  Two concurrent approval attempts that both run
their guard before either commit therefore both pass and both apply the
credit: the user ends at 40000 with two DEPOSIT transactions.  The final
conjunct shows the guard predicate itself would have rejected the second
commit had it been re-checked inside the atomic operation. -/
theorem C5_race_double_credit :
    resolveDepositGuard c5db "d1" =
      Except.ok ⟨"u1", 20000, DepositStatus.PENDING, none, none⟩ ∧
    (let req : DepositRequest := ⟨"u1", 20000, DepositStatus.PENDING, none, none⟩
     let dbA := resolveDepositCommit c5db "d1" req "approve" "admin" none
     let dbB := resolveDepositCommit dbA "d1" req "approve" "admin" none
     alookup dbB.users "u1" = some 40000 ∧
     (dbB.transactions.filter (fun t => decide (t.type = TxType.DEPOSIT))).length = 2 ∧
     resolveDepositGuard dbA "d1" = Except.error ApiError.AlreadyProcessed) := by
  decide

/-- Evaluation of `refundOrderAdmin` at any order the lookup finds: no guard
beyond existence, then the single refund `$transaction`. -/
theorem refundOrderAdmin_found (db : DB) (id adminId : String)
    (reason : Option String) (o : Order)
    (ho : alookup db.orders id = some o) :
    refundOrderAdmin db id adminId reason = Except.ok
      { db with
        orders := amodify id (fun x => { x with status := OrderStatus.CANCELED })
          db.orders,
        users := creditBalance db.users o.userId o.charge,
        transactions := db.transactions ++
          [⟨o.userId, TxType.REFUND, o.charge,
            "Admin refund: " ++ reason.getD "No reason provided"⟩],
        adminLogs := db.adminLogs ++ [⟨adminId, "ORDER_REFUND", "Order", id⟩] } := by
  unfold refundOrderAdmin
  rw [ho]

/-- Claim C6: for every existing order, regardless of status, the
admin-initiated refund atomically sets CANCELED, credits the charge, records
a REFUND transaction and an admin audit-log entry; it fails only when the
order does not exist; and invoking it twice credits the charge twice. -/
theorem C6_admin_refund_unguarded (db : DB) (id adminId : String)
    (reason : Option String) :
    (alookup db.orders id = none →
      refundOrderAdmin db id adminId reason = Except.error ApiError.NotFound) ∧
    ∀ o : Order, alookup db.orders id = some o →
      ∃ db1 : DB,
        refundOrderAdmin db id adminId reason = Except.ok db1 ∧
        alookup db1.orders id = some { o with status := OrderStatus.CANCELED } ∧
        db1.users = creditBalance db.users o.userId o.charge ∧
        db1.transactions = db.transactions ++
          [⟨o.userId, TxType.REFUND, o.charge,
            "Admin refund: " ++ reason.getD "No reason provided"⟩] ∧
        db1.adminLogs = db.adminLogs ++ [⟨adminId, "ORDER_REFUND", "Order", id⟩] ∧
        ∃ db2 : DB,
          refundOrderAdmin db1 id adminId reason = Except.ok db2 ∧
          db2.users = creditBalance (creditBalance db.users o.userId o.charge)
            o.userId o.charge ∧
          db2.transactions = db.transactions ++
            [⟨o.userId, TxType.REFUND, o.charge,
              "Admin refund: " ++ reason.getD "No reason provided"⟩,
             ⟨o.userId, TxType.REFUND, o.charge,
              "Admin refund: " ++ reason.getD "No reason provided"⟩] := by
  constructor
  · intro h
    unfold refundOrderAdmin
    rw [h]
  · intro o ho
    have hlook1 : alookup
        (amodify id (fun x => { x with status := OrderStatus.CANCELED }) db.orders)
        id = some { o with status := OrderStatus.CANCELED } := by
      rw [alookup_amodify_self, ho]
      rfl
    refine ⟨_, refundOrderAdmin_found db id adminId reason o ho,
      hlook1, rfl, rfl, rfl, ?_⟩
    refine ⟨_, refundOrderAdmin_found _ id adminId reason
      { o with status := OrderStatus.CANCELED } hlook1, rfl, ?_⟩
    show (db.transactions ++ [_]) ++ [_] = _
    rw [List.append_assoc]
    rfl

theorem C6_witness :
    alookup wdb.orders "o1" =
      some ⟨"u1", 500, OrderStatus.PROCESSING, some 77, none, none⟩ ∧
    ∃ db1 : DB,
      refundOrderAdmin wdb "o1" "a1" (some "dispute") = Except.ok db1 ∧
      db1.users = creditBalance wdb.users "u1" 500 ∧
      ∃ db2 : DB,
        refundOrderAdmin db1 "o1" "a1" (some "dispute") = Except.ok db2 ∧
        db2.users = creditBalance (creditBalance wdb.users "u1" 500) "u1" 500 := by
  obtain ⟨-, hsome⟩ := C6_admin_refund_unguarded wdb "o1" "a1" (some "dispute")
  obtain ⟨db1, h1, _, h3, _, _, db2, h6, h7, _⟩ :=
    hsome ⟨"u1", 500, OrderStatus.PROCESSING, some 77, none, none⟩ (by decide)
  exact ⟨by decide, db1, h1, h3, db2, h6, h7⟩

/-- Evaluation of `submitOrderToProvider` on any failing reply: the catch
block's compensating `$transaction`. -/
theorem submitOrderToProvider_failure (db : DB) (oid : String) (o : Order)
    (reply : ProviderSubmitReply)
    (ho : alookup db.orders oid = some o)
    (hrep : replyOrderId reply = none) :
    submitOrderToProvider db oid reply =
      { db with
        orders := amodify oid (fun x => { x with status := OrderStatus.FAILED })
          db.orders,
        users := creditBalance db.users o.userId o.charge,
        transactions := db.transactions ++
          [⟨o.userId, TxType.REFUND, o.charge, "Order failed"⟩] } := by
  unfold submitOrderToProvider
  rw [hrep]
  dsimp only
  rw [ho]

/-- Claim C7: for every committed order whose provider submission fails
(provider error, or missing / non-numeric provider order id), the order is
not rolled back but transitions to FAILED, the full charge is credited back
to the user's balance, and exactly one REFUND transaction of that amount is
recorded — restoring the balance the user had before the order's debit. -/
theorem C7_submit_failure_compensates (db : DB) (oid : String) (o : Order)
    (reply : ProviderSubmitReply)
    (ho : alookup db.orders oid = some o)
    (hfail : reply = ProviderSubmitReply.threw ∨
             reply = ProviderSubmitReply.missing ∨
             ∃ s : String, reply = ProviderSubmitReply.nonNumeric s) :
    alookup (submitOrderToProvider db oid reply).orders oid =
      some { o with status := OrderStatus.FAILED } ∧
    (submitOrderToProvider db oid reply).users =
      creditBalance db.users o.userId o.charge ∧
    (submitOrderToProvider db oid reply).transactions =
      db.transactions ++ [⟨o.userId, TxType.REFUND, o.charge, "Order failed"⟩] := by
  have hrep : replyOrderId reply = none := by
    rcases hfail with h | h | ⟨s, h⟩ <;> subst h <;> rfl
  rw [submitOrderToProvider_failure db oid o reply ho hrep]
  refine ⟨?_, rfl, rfl⟩
  show alookup (amodify oid (fun x => { x with status := OrderStatus.FAILED })
    db.orders) oid = _
  rw [alookup_amodify_self, ho]
  rfl

theorem C7_witness :
    alookup wdb.orders "o1" =
      some ⟨"u1", 500, OrderStatus.PROCESSING, some 77, none, none⟩ ∧
    (submitOrderToProvider wdb "o1" ProviderSubmitReply.threw).users =
      creditBalance wdb.users "u1" 500 ∧
    (submitOrderToProvider wdb "o1" ProviderSubmitReply.threw).transactions =
      wdb.transactions ++ [⟨"u1", TxType.REFUND, 500, "Order failed"⟩] := by
  obtain ⟨_, h2, h3⟩ :=
    C7_submit_failure_compensates wdb "o1"
      ⟨"u1", 500, OrderStatus.PROCESSING, some 77, none, none⟩
      ProviderSubmitReply.threw (by decide) (Or.inl rfl)
  exact ⟨by decide, h2, h3⟩

theorem statusMap_none (s : String)
    (hs : s ∉ ["Pending", "In progress", "Processing", "Completed", "Partial",
               "Canceled", "Refunded", "Failed"]) : statusMap s = none := by
  simp only [List.mem_cons, List.mem_singleton, not_or] at hs
  obtain ⟨h1, h2, h3, h4, h5, h6, h7, h8⟩ := hs
  simp [statusMap, h1, h2, h3, h4, h5, h6, h7, h8]

/-- Claim C8: a provider-reported status string outside the fixed lookup
table's keys leaves the order's internal status unchanged: the iteration
commits nothing — no order update, no refund, no ledger write. -/
theorem C8_unmapped_status_no_effect (db : DB) (oid : String)
    (r : ProviderStatusReply)
    (hs : r.status ∉ ["Pending", "In progress", "Processing", "Completed",
                      "Partial", "Canceled", "Refunded", "Failed"]) :
    syncOrderStep db oid r = db ∧
    ∀ o : Order, syncOneOrderCommits db oid o r = [] := by
  have hm := statusMap_none r.status hs
  have hcom : ∀ o : Order, syncOneOrderCommits db oid o r = [] := by
    intro o
    unfold syncOneOrderCommits
    rw [hm]
    dsimp only [Option.getD]
    rw [if_pos rfl]
  refine ⟨?_, hcom⟩
  unfold syncOrderStep
  split
  · rfl
  · split
    · unfold syncOneOrder
      rw [hcom]
      rfl
    · rfl

theorem C8_witness :
    ("Refund pending" : String) ∉
      ["Pending", "In progress", "Processing", "Completed", "Partial",
       "Canceled", "Refunded", "Failed"] ∧
    syncOrderStep wdb "o1" ⟨"Refund pending", some 3, some 1⟩ = wdb := by
  refine ⟨by decide, ?_⟩
  exact (C8_unmapped_status_no_effect wdb "o1" ⟨"Refund pending", some 3, some 1⟩
    (by decide)).1

theorem alookup_map_charge_amodify (l : List (String × Order)) (key oid : String)
    (f : Order → Order) (hf : ∀ x : Order, (f x).charge = x.charge) :
    (alookup (amodify key f l) oid).map Order.charge =
      (alookup l oid).map Order.charge := by
  rw [alookup_amodify]
  by_cases h : oid = key
  · rw [if_pos h]
    rcases alookup l oid with _ | o
    · rfl
    · simp [hf]
  · rw [if_neg h]

/-- No modeled ledger operation ever writes an Order's `charge` column. -/
theorem applyOp_charge (db : DB) (op : LedgerOp) (oid : String) :
    (alookup (applyOp db op).orders oid).map Order.charge =
      (alookup db.orders oid).map Order.charge := by
  cases op with
  | adminDeposit id action adminId note =>
    show (alookup (((resolveDepositRequestAdmin db id action adminId
        note).toOption).getD db).orders oid).map Order.charge = _
    unfold resolveDepositRequestAdmin resolveDepositGuard
    split
    · rfl
    · split
      · rfl
      · split
        · rfl
        · unfold resolveDepositCommit
          split
          · rfl
          · rfl
  | telegramDeposit kind id action =>
    show (alookup (processCallbackQuery db kind id action).1.orders oid).map
        Order.charge = _
    unfold processCallbackQuery
    split
    · rfl
    · split
      · rfl
      · split
        · rfl
        · by_cases ha : action = "APPROVE"
          · simp only [if_pos ha]
          · simp only [if_neg ha]
  | adminRefund orderId adminId reason =>
    show (alookup (((refundOrderAdmin db orderId adminId
        reason).toOption).getD db).orders oid).map Order.charge = _
    unfold refundOrderAdmin
    split
    · rfl
    · exact alookup_map_charge_amodify db.orders orderId oid
        (fun o => { o with status := OrderStatus.CANCELED }) (fun x => rfl)
  | providerSubmit orderId reply =>
    show (alookup (submitOrderToProvider db orderId reply).orders oid).map
        Order.charge = _
    unfold submitOrderToProvider
    split
    · rename_i pid heq
      split
      · exact alookup_map_charge_amodify db.orders orderId oid
          (fun o => { o with status := OrderStatus.PROCESSING,
                             providerOrderId := some pid }) (fun x => rfl)
      · rfl
    · split
      · rfl
      · exact alookup_map_charge_amodify db.orders orderId oid
          (fun o => { o with status := OrderStatus.FAILED }) (fun x => rfl)
  | reconcile orderId r =>
    show (alookup (syncOrderStep db orderId r).orders oid).map Order.charge = _
    unfold syncOrderStep
    split
    · rfl
    · rename_i o heq
      split
      · unfold syncOneOrder syncOneOrderCommits
        dsimp only
        split
        · rfl
        · split
          · exact alookup_map_charge_amodify db.orders orderId oid
              (fun x => syncOrderUpdate x ((statusMap r.status).getD o.status) r)
              (fun x => rfl)
          · exact alookup_map_charge_amodify db.orders orderId oid
              (fun x => syncOrderUpdate x ((statusMap r.status).getD o.status) r)
              (fun x => rfl)
      · rfl

theorem foldl_applyOp_charge (ops : List LedgerOp) (db : DB) (oid : String) :
    (alookup (ops.foldl applyOp db).orders oid).map Order.charge =
      (alookup db.orders oid).map Order.charge := by
  induction ops generalizing db with
  | nil => rfl
  | cons op rest ih => rw [List.foldl_cons, ih (applyOp db op), applyOp_charge]

/-- Claim C9: an Order's `charge`, once set, is never written again: every
ledger operation (reconciliation, submission failure, admin refund, deposit
paths) preserves it, the admin service edit touches only the Service table,
and hence `charge` is identical after any sequence of operations — even when
the underlying service's price is changed. -/
theorem C9_charge_immutable (db : DB) (oid : String) :
    (∀ op : LedgerOp,
      (alookup (applyOp db op).orders oid).map Order.charge =
        (alookup db.orders oid).map Order.charge) ∧
    (∀ sid : Nat, ∀ patch : ServicePatch,
      (updateServiceAdmin db sid patch).orders = db.orders) ∧
    (∀ ops : List LedgerOp,
      (alookup (ops.foldl applyOp db).orders oid).map Order.charge =
        (alookup db.orders oid).map Order.charge) :=
  ⟨fun op => applyOp_charge db op oid,
   fun _ _ => rfl,
   fun ops => foldl_applyOp_charge ops db oid⟩

theorem C9_witness :
    (alookup ((wops.foldl applyOp wdb)).orders "o1").map Order.charge =
      (alookup wdb.orders "o1").map Order.charge :=
  (C9_charge_immutable wdb "o1").2.2 wops

/-- Claim C10: catalog sync never writes `price` or `isActive` of an existing
Service row (admin-set values survive every sync), and a descriptor with no
existing row creates the Service with `isActive = false`, so a sync can never
by itself make a new service orderable. -/
theorem C10_service_sync_preserves_admin_fields (db : DB) (key : String)
    (nextId : Nat) (svc : ProviderServiceDescriptor) :
    (∀ sid : Nat, ∀ s0 : Service,
      findServiceByProvider db.services key svc.service = some (sid, s0) →
      alookup db.services sid = some s0 →
      alookup (syncOneService db key nextId svc).services sid =
        some { s0 with
          name := svc.name,
          type := typeOrDefault svc.type,
          category := svc.category,
          rate := computeRateKrw svc.rate,
          rateUsdPer1000 := svc.rate,
          min := svc.min,
          max := svc.max,
          isRefill := svc.refill,
          isCancel := svc.cancel }) ∧
    (findServiceByProvider db.services key svc.service = none →
      (syncOneService db key nextId svc).services =
        db.services ++ [(nextId, newServiceRow key svc)] ∧
      (newServiceRow key svc).isActive = false) := by
  constructor
  · intro sid s0 hf hl
    unfold syncOneService
    rw [hf]
    dsimp only
    rw [alookup_amodify_self, hl]
    rfl
  · intro hf
    unfold syncOneService
    rw [hf]
    exact ⟨rfl, rfl⟩

/-- Provider descriptor matching the existing service row of `wdb`. -/
def wsvcExisting : ProviderServiceDescriptor :=
  ⟨601, "new provider name", some "Custom Comments", "newcat", 2, 100, 50000,
   true, false⟩

/-- Provider descriptor with no existing row in `wdb`. -/
def wsvcNew : ProviderServiceDescriptor :=
  ⟨999, "brand new", none, "cat2", 3, 50, 5000, false, true⟩

theorem C10_witness :
    findServiceByProvider wdb.services "SMMKINGS" 601 =
      some (1, { providerKey := "SMMKINGS", providerId := 601,
                 name := "old name", type := "Default", category := "cat",
                 rate := 1400, rateUsdPer1000 := 1, price := 5000,
                 min := 10, max := 10000, isRefill := false,
                 isCancel := false, isActive := true,
                 title := some "custom title", description := none }) ∧
    (alookup (syncOneService wdb "SMMKINGS" 9 wsvcExisting).services 1).map
      Service.price = some 5000 ∧
    (alookup (syncOneService wdb "SMMKINGS" 9 wsvcExisting).services 1).map
      Service.isActive = some true ∧
    findServiceByProvider wdb.services "SMMKINGS" 999 = none ∧
    (syncOneService wdb "SMMKINGS" 9 wsvcNew).services =
      wdb.services ++ [(9, newServiceRow "SMMKINGS" wsvcNew)] ∧
    (newServiceRow "SMMKINGS" wsvcNew).isActive = false := by
  obtain ⟨hupd, -⟩ :=
    C10_service_sync_preserves_admin_fields wdb "SMMKINGS" 9 wsvcExisting
  obtain ⟨-, hcreate⟩ :=
    C10_service_sync_preserves_admin_fields wdb "SMMKINGS" 9 wsvcNew
  have h1 := hupd 1
    { providerKey := "SMMKINGS", providerId := 601,
      name := "old name", type := "Default", category := "cat",
      rate := 1400, rateUsdPer1000 := 1, price := 5000,
      min := 10, max := 10000, isRefill := false,
      isCancel := false, isActive := true,
      title := some "custom title", description := none }
    (by decide) (by decide)
  have h2 := hcreate (by decide)
  exact ⟨by decide, by rw [h1]; rfl, by rw [h1]; rfl, by decide, h2.1, h2.2⟩

end SocialLabs
